import Mathlib

/-!
Verification of the NICO KubernetesCluster reconciliation core.

This file gives a shallow embedding, in Lean, of the parts of the operator
relevant to the stated properties: the machine selector, the phase function of
the readiness monitor, the readiness aggregation loop, the drift-repair patch
computation, the API-gateway coordinates and error behaviour, the child
creation with owner references, and the action traces of the reconciler, the
monitor and the deletion handler.

Conventions of the embedding:
- Python dictionaries with known keys become structures with Option fields;
  a field read with .get(k) becomes an Option, a read with .get(k, d) becomes
  Option.getD d.
- Python truthiness of a string is "non-empty", of a list "non-empty", of an
  Option "present and truthy".
- Fallible API calls are passed in as explicit results (Option or Except), so
  each handler becomes a pure function of its inputs; the side effects a
  handler performs are returned as an ordered list of ApiAction values.
- Timestamps, logging and metrics are side channels without control-flow
  influence and are omitted.
-/

/-- A Machine custom resource, as read by the core: the metadata.name,
metadata.labels, the status.hasConfiguration flag (absent when the status has
no such key), the spec fields used for topology and SSH, and the presence of
the fullInstallationApplied metadata marker. -/
structure Machine where
  name : String
  labels : List (String × String)
  hasConfiguration : Option Bool
  hostname : Option String := none
  ipAddress : Option String := none
  fullInstallationApplied : Bool := false
  sshKeySecretRef : Option String := none
deriving DecidableEq, Repr

/-- One role block of a KubernetesCluster spec: the explicit machines list
(.get with default empty), machineSelector.matchLabels, and count
(.get with default 0). -/
structure RoleSpec where
  machines : List String := []
  matchLabels : List (String × String) := []
  count : Nat := 0
deriving DecidableEq, Repr

/-- The KubernetesCluster spec fields the core reads. -/
structure ClusterSpec where
  gitRepo : String
  ref : Option String := none
  configurationSubdir : Option String := none
  credentialsRef : Option String := none
  controlPlane : RoleSpec := {}
  dataPlane : RoleSpec := {}
deriving DecidableEq, Repr

/-- The KubernetesCluster status fields the core reads back. -/
structure ClusterStatus where
  selectedControlPlaneMachines : List String := []
  selectedDataPlaneMachines : List String := []
  appliedMachines : List (String × String) := []
deriving DecidableEq, Repr

/-- The two roles the selector is invoked with. -/
inductive Role where
  | controlPlane
  | dataPlane
deriving DecidableEq, Repr

/-- The role block of the spec for a role (cluster_spec.get(role, dict())). -/
def roleSpecOf (spec : ClusterSpec) (role : Role) : RoleSpec :=
  match role with
  | .controlPlane => spec.controlPlane
  | .dataPlane => spec.dataPlane

/-- The persisted selection list read from status for a role
(selectedControlPlaneMachines or selectedDataPlaneMachines). -/
def selectedOf (st : ClusterStatus) (role : Role) : List String :=
  match role with
  | .controlPlane => st.selectedControlPlaneMachines
  | .dataPlane => st.selectedDataPlaneMachines

/-- The selector-match test of select_machines_for_cluster: every
(key, value) pair of matchLabels must be present in the machine labels
(machine_labels.get(key) compared against value). -/
def labelsMatch (machineLabels : List (String × String))
    (matchLabels : List (String × String)) : Bool :=
  matchLabels.all (fun kv => machineLabels.lookup kv.1 == some kv.2)

/-- The availability test of select_machines_for_cluster: the machine status
flag hasConfiguration read with default True, then negated, so an absent flag
means unavailable. -/
def machineAvailable (m : Machine) : Bool :=
  !(m.hasConfiguration.getD true)

/-- The names of pool machines that pass both the selector match and the
availability test, in pool order (the loop body of the fresh-selection path).
-/
def availableMatchingNames (matchLabels : List (String × String))
    (pool : List Machine) : List String :=
  (pool.filter (fun m => labelsMatch m.labels matchLabels && machineAvailable m)).map
    Machine.name

/-- The fresh-selection path of select_machines_for_cluster: an early empty
return when count is 0, otherwise the filtered names sorted ascending and cut
to the first count entries. -/
def freshSelection (matchLabels : List (String × String)) (count : Nat)
    (pool : List Machine) : List String :=
  if count = 0 then []
  else
    (List.insertionSort (fun a b : String => a ≤ b)
      (availableMatchingNames matchLabels pool)).take count

/-- select_machines_for_cluster from kubernetescluster_handlers.py: explicit
spec list first, then the persisted selection from status, then fresh
selection from the pool. -/
def select_machines_for_cluster (spec : ClusterSpec) (role : Role)
    (current_status : Option ClusterStatus) (pool : List Machine) : List String :=
  let role_spec := roleSpecOf spec role
  if role_spec.machines ≠ [] then
    role_spec.machines
  else
    let previously_selected :=
      match current_status with
      | some st => selectedOf st role
      | none => []
    if previously_selected ≠ [] then previously_selected
    else freshSelection role_spec.matchLabels role_spec.count pool

/-- The all-control-plane-ready test of monitor_cluster_status. -/
def all_control_plane_ready (control_plane_ready total_control_plane : Nat) : Bool :=
  control_plane_ready == total_control_plane && decide (0 < control_plane_ready)

/-- The all-workers-ready test of monitor_cluster_status. -/
def all_workers_ready (data_plane_ready total_data_plane : Nat) : Bool :=
  (data_plane_ready == total_data_plane && decide (0 < total_data_plane)) ||
    total_data_plane == 0

/-- The phase computation of monitor_cluster_status: Provisioning unless the
control plane is fully ready, in which case Ready when the workers are also
ready and ControlPlaneReady otherwise. -/
def computePhase (control_plane_ready total_control_plane
    data_plane_ready total_data_plane : Nat) : String :=
  if all_control_plane_ready control_plane_ready total_control_plane &&
      all_workers_ready data_plane_ready total_data_plane then "Ready"
  else if all_control_plane_ready control_plane_ready total_control_plane then
    "ControlPlaneReady"
  else "Provisioning"

/-- A value placed into a merge-patch body: either a concrete string or the
explicit null that removes the field on the server. -/
inductive FieldValue where
  | str (value : String)
  | null
deriving DecidableEq, Repr

/-- The merge-patch value for an optional parent field: its value when set,
explicit null when the parent no longer sets it. -/
def fieldValueOfOpt : Option String → FieldValue
  | some s => FieldValue.str s
  | none => FieldValue.null

/-- The spec of an already-existing child NixosConfiguration as read back for
drift detection: the four configurable fields, each possibly absent. -/
structure NixosSpecView where
  gitRepo : Option String := none
  ref : Option String := none
  configurationSubdir : Option String := none
  credentialsRef : Option String := none
deriving DecidableEq, Repr

/-- The spec_updates dictionary computed by reconcile_kubernetes_cluster for
an existing child, in insertion order: gitRepo compared raw, ref compared raw
with None meaning removal, configurationSubdir compared after defaulting to
the empty string on both sides, credentialsRef compared raw with None meaning
removal. -/
def computeSpecUpdates (spec : ClusterSpec) (existing : NixosSpecView) :
    List (String × FieldValue) :=
  (if existing.gitRepo ≠ some spec.gitRepo then
    [("gitRepo", FieldValue.str spec.gitRepo)] else []) ++
  (if spec.ref ≠ existing.ref then [("ref", fieldValueOfOpt spec.ref)] else []) ++
  (if spec.configurationSubdir.getD "" ≠ existing.configurationSubdir.getD "" then
    [("configurationSubdir", FieldValue.str (spec.configurationSubdir.getD ""))]
   else []) ++
  (if spec.credentialsRef ≠ existing.credentialsRef then
    [("credentialsRef", fieldValueOfOpt spec.credentialsRef)] else [])

/-- The conditional patch call: patch_nixos_configuration_spec is invoked with
the update dictionary only when it is non-empty. -/
def driftPatch (spec : ClusterSpec) (existing : NixosSpecView) :
    Option (List (String × FieldValue)) :=
  let spec_updates := computeSpecUpdates spec existing
  if spec_updates ≠ [] then some spec_updates else none

/-- An ownerReferences entry as placed on created children. -/
structure OwnerReference where
  apiVersion : String
  kind : String
  name : String
  uid : String
  controller : Bool
  blockOwnerDeletion : Bool
deriving DecidableEq, Repr

/-- One additionalFiles entry of a child spec: the path, the valueType
(Inline or SecretRef) and, for SecretRef entries, the referenced secret name.
The bytes of the inline cluster.nix document are not modelled; no stated
property concerns them. -/
structure AdditionalFile where
  path : String
  valueType : String
  secretRefName : Option String := none
deriving DecidableEq, Repr

/-- The spec of a child NixosConfiguration as synthesized at creation time by
create_nixos_configuration_for_machine. -/
structure NixosChildSpec where
  gitRepo : String
  ref : Option String := none
  configurationSubdir : String := ""
  credentialsRef : Option String := none
  flake : String
  onRemoveFlake : String
  machineRefName : String
  fullInstall : Bool
  additionalFiles : List AdditionalFile
deriving DecidableEq, Repr

/-- The body built by create_nixos_configuration_with_owner in clients.py:
name, the cluster and role labels, a single owner reference naming the parent
KubernetesCluster with controller and blockOwnerDeletion both true, and the
given spec. -/
structure NixosConfigurationObject where
  name : String
  labels : List (String × String)
  ownerReferences : List OwnerReference
  spec : NixosChildSpec
deriving DecidableEq, Repr

/-- create_nixos_configuration_with_owner from clients.py. -/
def create_nixos_configuration_with_owner (config_name : String)
    (spec : NixosChildSpec) (owner_name owner_uid role : String) :
    NixosConfigurationObject :=
  { name := config_name
    labels := [("nico.homystack.com/cluster", owner_name),
               ("nico.homystack.com/role", role)]
    ownerReferences := [{ apiVersion := "nico.homystack.com/v1alpha1"
                          kind := "KubernetesCluster"
                          name := owner_name
                          uid := owner_uid
                          controller := true
                          blockOwnerDeletion := true }]
    spec := spec }

/-- Python truthiness of an optional string: present and non-empty. -/
def optStrTruthy (o : Option String) : Bool :=
  !(o.getD "" == "")

/-- create_nixos_configuration_for_machine from
kubernetescluster_handlers.py: builds the ordered additionalFiles list
(cluster.nix inline, join-token secret reference, machine-ssh-key secret
reference only when the machine declares one), the child spec with flake
pointing at the machine name, onRemoveFlake #minimal, fullInstall negating
the presence of the fullInstallationApplied marker, ref and credentialsRef
only when truthy on the parent, and creates the object with the owner
reference. -/
def create_nixos_configuration_for_machine (cluster_name cluster_uid
    machine_name role : String) (cluster_spec : ClusterSpec)
    (machine : Machine) (join_token_secret : String) :
    NixosConfigurationObject :=
  let additional_files :=
    [{ path := "cluster.nix", valueType := "Inline" },
     { path := "join-token", valueType := "SecretRef",
       secretRefName := some join_token_secret }] ++
    (match machine.sshKeySecretRef with
     | some ssh_key_secret =>
       [{ path := "machine-ssh-key", valueType := "SecretRef",
          secretRefName := some ssh_key_secret : AdditionalFile }]
     | none => [])
  let nixos_config_spec : NixosChildSpec :=
    { gitRepo := cluster_spec.gitRepo
      flake := "#" ++ machine_name
      onRemoveFlake := "#minimal"
      configurationSubdir := cluster_spec.configurationSubdir.getD ""
      machineRefName := machine_name
      fullInstall := !machine.fullInstallationApplied
      additionalFiles := additional_files
      ref := if optStrTruthy cluster_spec.ref then cluster_spec.ref else none
      credentialsRef :=
        if optStrTruthy cluster_spec.credentialsRef then
          cluster_spec.credentialsRef
        else none }
  create_nixos_configuration_with_owner (cluster_name ++ "-" ++ machine_name)
    nixos_config_spec cluster_name cluster_uid role

/-- A status patch body as written by the core (conditions and timestamps
omitted; fields the write does not touch are none). -/
structure StatusUpdate where
  phase : String
  controlPlaneReady : String
  dataPlaneReady : String
  kubeconfigSecret : String
  appliedMachines : Option (List (String × String)) := none
  selectedControlPlaneMachines : Option (List String) := none
  selectedDataPlaneMachines : Option (List String) := none
deriving DecidableEq, Repr

/-- A side effect performed against the cluster API, in program order. A
createSecret carries the data keys of the secret it writes. -/
inductive ApiAction where
  | createSecret (name : String) (dataKeys : List String)
  | deleteSecret (name : String)
  | createConfig (obj : NixosConfigurationObject)
  | deleteConfig (name : String)
  | patchConfig (name : String) (spec_updates : List (String × FieldValue))
  | patchStatus (update : StatusUpdate)
deriving DecidableEq, Repr

/-- The child configuration fields read back by monitor_cluster_status: the
role label and the status.appliedCommit. -/
structure ChildConfig where
  roleLabel : Option String := none
  appliedCommit : Option String := none
deriving DecidableEq, Repr

/-- The machine status read back by monitor_cluster_status. -/
structure MachineStatusView where
  hasConfiguration : Option Bool := none
deriving DecidableEq, Repr

/-- One iteration's inputs in the monitor loop over appliedMachines: the
machine name and the two fetches, where none records that the API call
raised. -/
structure MonitorEntry where
  machineName : String
  configFetch : Option ChildConfig
  machineFetch : Option MachineStatusView
deriving DecidableEq, Repr

/-- The counter state of the monitor loop. -/
structure Counts where
  control_plane_ready : Nat
  data_plane_ready : Nat
  total_control_plane : Nat
  total_data_plane : Nat
  ready_control_plane_nodes : List String
deriving DecidableEq, Repr

/-- One iteration of the monitor loop: a failed fetch of either the child
configuration or the machine leaves all counters untouched (the except branch
logs and continues); otherwise the role comes from the child's role label
defaulting to worker, readiness requires a non-empty appliedCommit and a true
hasConfiguration, and the role's total is always incremented. -/
def stepEntry (c : Counts) (e : MonitorEntry) : Counts :=
  match e.configFetch with
  | none => c
  | some config =>
    match e.machineFetch with
    | none => c
    | some machine =>
      let is_control_plane := (config.roleLabel.getD "worker") == "control-plane"
      let is_ready := optStrTruthy config.appliedCommit &&
        machine.hasConfiguration.getD false
      let c1 :=
        if is_ready then
          if is_control_plane then
            { c with control_plane_ready := c.control_plane_ready + 1
                     ready_control_plane_nodes :=
                       c.ready_control_plane_nodes ++ [e.machineName] }
          else { c with data_plane_ready := c.data_plane_ready + 1 }
        else c
      if is_control_plane then
        { c1 with total_control_plane := c1.total_control_plane + 1 }
      else { c1 with total_data_plane := c1.total_data_plane + 1 }

/-- The aggregation loop of monitor_cluster_status over appliedMachines. -/
def aggregateStatuses (entries : List MonitorEntry) : Counts :=
  entries.foldl stepEntry ⟨0, 0, 0, 0, []⟩

/-- An entry that is counted as a ready control-plane node: both fetches
succeeded, the role label resolves to control-plane, the appliedCommit is
non-empty and the machine reports hasConfiguration true. -/
def entryReadyControlPlane (e : MonitorEntry) : Bool :=
  match e.configFetch, e.machineFetch with
  | some config, some machine =>
    ((config.roleLabel.getD "worker") == "control-plane") &&
      (optStrTruthy config.appliedCommit && machine.hasConfiguration.getD false)
  | _, _ => false

/-- The external inputs of one monitor tick: the two fetches indexed by the
configuration and machine names (none records a raised exception), whether
the kubeconfig secret already exists, and the text the SSH harvest would
return (none when extraction fails). -/
structure MonitorEnv where
  getConfig : String → Option ChildConfig
  getMachineStatus : String → Option MachineStatusView
  kubeconfigSecretExists : Bool
  harvested : Option String
deriving Inhabited

/-- The per-iteration inputs for one appliedMachines entry, as fetched in the
monitor loop. -/
def mkMonitorEntry (env : MonitorEnv) (p : String × String) : MonitorEntry :=
  { machineName := p.1
    configFetch := env.getConfig p.2
    machineFetch := env.getMachineStatus p.1 }

/-- The status patch written by monitor_cluster_status: the computed phase,
the two ready counters as R slash T strings, and the kubeconfig secret name.
-/
def monitorStatusUpdate (name : String) (c : Counts) : StatusUpdate :=
  { phase := computePhase c.control_plane_ready c.total_control_plane
      c.data_plane_ready c.total_data_plane
    controlPlaneReady :=
      toString c.control_plane_ready ++ "/" ++ toString c.total_control_plane
    dataPlaneReady :=
      toString c.data_plane_ready ++ "/" ++ toString c.total_data_plane
    kubeconfigSecret := name ++ "-kubeconfig" }

/-- monitor_cluster_status from kubernetescluster_handlers.py as the ordered
list of API effects of one timer tick: nothing when appliedMachines is empty;
otherwise the aggregation runs, the kubeconfig secret is created only when
the control plane is fully ready, the secret does not already exist and the
harvest returned non-empty text, and the status patch is always written. -/
def monitor_cluster_status (name : String)
    (appliedMachines : List (String × String)) (env : MonitorEnv) :
    List ApiAction :=
  if appliedMachines = [] then []
  else
    let entries := appliedMachines.map (mkMonitorEntry env)
    let c := aggregateStatuses entries
    let kubeconfigActions :=
      if all_control_plane_ready c.control_plane_ready c.total_control_plane &&
          !env.kubeconfigSecretExists && optStrTruthy env.harvested then
        [ApiAction.createSecret (name ++ "-kubeconfig") ["kubeconfig"]]
      else []
    kubeconfigActions ++ [ApiAction.patchStatus (monitorStatusUpdate name c)]

/-- The status patch written at the end of a successful reconcile: phase
Provisioning, zeroed ready counters over the selected totals, the promise of
the kubeconfig secret name, the applied machine map and the persisted
selection. -/
def reconcileStatusUpdate (name : String) (control_plane_nodes
    worker_nodes : List String) (applied_configs : List (String × String)) :
    StatusUpdate :=
  { phase := "Provisioning"
    controlPlaneReady := "0/" ++ toString control_plane_nodes.length
    dataPlaneReady := "0/" ++ toString worker_nodes.length
    kubeconfigSecret := name ++ "-kubeconfig"
    appliedMachines := some applied_configs
    selectedControlPlaneMachines := some control_plane_nodes
    selectedDataPlaneMachines := some worker_nodes }

/-- handle_cluster_deletion from kubernetescluster_handlers.py: delete every
child named in appliedMachines, then the join-token secret, then the
kubeconfig secret; each step is best-effort and no status is written. -/
def handle_cluster_deletion (cluster_name : String)
    (applied_configs : List (String × String)) : List ApiAction :=
  (applied_configs.map (fun p => ApiAction.deleteConfig p.2)) ++
  [ApiAction.deleteSecret (cluster_name ++ "-join-token"),
   ApiAction.deleteSecret (cluster_name ++ "-kubeconfig")]

/-- The external inputs of one reconcile pass: the machine pool of the
namespace, the machine fetch used for topology and child creation, the
existing-child lookup (none records a get that raised not-found), and
whether the join-token secret already exists. -/
structure ReconcileEnv where
  pool : List Machine
  getMachine : String → Machine
  existingConfig : String → Option NixosSpecView
  joinTokenSecretExists : Bool

/-- The error classes reconcile_kubernetes_cluster raises. -/
inductive ReconcileError where
  | permanentMissingUid
  | temporaryNoControlPlaneMachines
deriving DecidableEq, Repr

/-- The ensure-or-patch step for one selected machine: an existing child is
diffed and patched only when the update set is non-empty; a not-found child
is created through create_nixos_configuration_for_machine. -/
def ensure_child (cluster_name cluster_uid : String) (spec : ClusterSpec)
    (machine_name role join_token_secret : String) (env : ReconcileEnv) :
    List ApiAction :=
  let config_name := cluster_name ++ "-" ++ machine_name
  match env.existingConfig config_name with
  | some existing_spec =>
    match driftPatch spec existing_spec with
    | some spec_updates => [ApiAction.patchConfig config_name spec_updates]
    | none => []
  | none =>
    [ApiAction.createConfig (create_nixos_configuration_for_machine
      cluster_name cluster_uid machine_name role spec
      (env.getMachine machine_name) join_token_secret)]

/-- reconcile_kubernetes_cluster from kubernetescluster_handlers.py as the
ordered list of API effects of one event: the deletion path when the deletion
timestamp is set, a permanent error on a missing uid, selection for both
roles with the current status, a temporary error when the control-plane
selection is empty, the conditional join-token secret creation, the
ensure-or-patch pass over both roles, and the single closing status patch. -/
def reconcile_kubernetes_cluster (name : String) (uid : Option String)
    (spec : ClusterSpec) (status : Option ClusterStatus)
    (deletionTimestampSet : Bool) (env : ReconcileEnv) :
    Except ReconcileError (List ApiAction) :=
  if deletionTimestampSet then
    .ok (handle_cluster_deletion name
      ((status.map ClusterStatus.appliedMachines).getD []))
  else
    match uid with
    | none => .error .permanentMissingUid
    | some cluster_uid =>
      let control_plane_nodes :=
        select_machines_for_cluster spec .controlPlane status env.pool
      let worker_nodes :=
        select_machines_for_cluster spec .dataPlane status env.pool
      if control_plane_nodes = [] then .error .temporaryNoControlPlaneMachines
      else
        let join_token_secret := name ++ "-join-token"
        let tokenActions :=
          if env.joinTokenSecretExists then []
          else [ApiAction.createSecret join_token_secret ["token"]]
        let cpActions := (control_plane_nodes.map (fun machine_name =>
          ensure_child name cluster_uid spec machine_name "control-plane"
            join_token_secret env)).flatten
        let dpActions := (worker_nodes.map (fun machine_name =>
          ensure_child name cluster_uid spec machine_name "worker"
            join_token_secret env)).flatten
        let applied_configs := (control_plane_nodes ++ worker_nodes).map
          (fun machine_name => (machine_name, name ++ "-" ++ machine_name))
        .ok (tokenActions ++ cpActions ++ dpActions ++
          [ApiAction.patchStatus
            (reconcileStatusUpdate name control_plane_nodes worker_nodes
              applied_configs)])

/-- The coordinates of a custom-object API call in clients.py. -/
structure ApiCoordinates where
  group : String
  version : String
  plural : String
deriving DecidableEq, Repr

/-- Coordinates used by get_machine in clients.py. -/
def get_machine_coords : ApiCoordinates :=
  { group := "nio.homystack.com", version := "v1alpha1", plural := "machines" }

/-- Coordinates used by list_machines in clients.py. -/
def list_machines_coords : ApiCoordinates :=
  { group := "nio.homystack.com", version := "v1alpha1", plural := "machines" }

/-- Coordinates used by create_nixos_configuration in clients.py. -/
def create_nixos_configuration_coords : ApiCoordinates :=
  { group := "nio.homystack.com", version := "v1alpha1",
    plural := "nixosconfigurations" }

/-- Coordinates used by create_nixos_configuration_with_owner in clients.py.
-/
def create_nixos_configuration_with_owner_coords : ApiCoordinates :=
  { group := "nio.homystack.com", version := "v1alpha1",
    plural := "nixosconfigurations" }

/-- Coordinates used by delete_nixos_configuration in clients.py. -/
def delete_nixos_configuration_coords : ApiCoordinates :=
  { group := "nio.homystack.com", version := "v1alpha1",
    plural := "nixosconfigurations" }

/-- Coordinates used by get_nixos_configuration in clients.py. -/
def get_nixos_configuration_coords : ApiCoordinates :=
  { group := "nio.homystack.com", version := "v1alpha1",
    plural := "nixosconfigurations" }

/-- Coordinates used by patch_nixos_configuration_spec in clients.py. -/
def patch_nixos_configuration_spec_coords : ApiCoordinates :=
  { group := "nio.homystack.com", version := "v1alpha1",
    plural := "nixosconfigurations" }

/-- Coordinates used by update_cluster_status in clients.py. -/
def update_cluster_status_coords : ApiCoordinates :=
  { group := "nico.homystack.com", version := "v1alpha1",
    plural := "kubernetesclusters" }

/-- Every custom-resource coordinate tuple used by the core, one per client
operation. -/
def allCustomResourceCoords : List ApiCoordinates :=
  [get_machine_coords, list_machines_coords,
   create_nixos_configuration_coords,
   create_nixos_configuration_with_owner_coords,
   delete_nixos_configuration_coords, get_nixos_configuration_coords,
   patch_nixos_configuration_spec_coords, update_cluster_status_coords]

/-- An error returned by the underlying cluster API. -/
inductive ApiError where
  | notFound
  | other (message : String)
deriving DecidableEq, Repr

/-- list_machines from clients.py: the try block returns the item list on
success and the except block logs and returns the empty list on any failure.
-/
def list_machines (apiResult : Except ApiError (List Machine)) : List Machine :=
  match apiResult with
  | .ok machines => machines
  | .error _ => []

/-- get_nixos_configuration from clients.py: the except block logs and
re-raises, so the result, error or not, is passed through unchanged. -/
def get_nixos_configuration_result (apiResult : Except ApiError NixosSpecView) :
    Except ApiError NixosSpecView :=
  apiResult

/-- get_machine from clients.py: no handler at all, so the result is passed
through unchanged. -/
def get_machine_result (apiResult : Except ApiError Machine) :
    Except ApiError Machine :=
  apiResult

/-- get_secret_data from clients.py: the except block logs and re-raises, so
the decoded key-value result, error or not, is passed through unchanged. -/
def get_secret_data_result
    (apiResult : Except ApiError (List (String × String))) :
    Except ApiError (List (String × String)) :=
  apiResult

/-- create_secret from clients.py: the except block logs and re-raises, so
the result is passed through unchanged. -/
def create_secret_result (apiResult : Except ApiError Unit) :
    Except ApiError Unit :=
  apiResult

/-- delete_secret from clients.py: the except block logs and re-raises, so
the result is passed through unchanged. -/
def delete_secret_result (apiResult : Except ApiError Unit) :
    Except ApiError Unit :=
  apiResult

/-- create_nixos_configuration from clients.py: the except block logs and
re-raises, so the result is passed through unchanged. -/
def create_nixos_configuration_result (apiResult : Except ApiError Unit) :
    Except ApiError Unit :=
  apiResult

/-- create_nixos_configuration_with_owner from clients.py: the except block
logs and re-raises, so the result is passed through unchanged. -/
def create_nixos_configuration_with_owner_result
    (apiResult : Except ApiError Unit) : Except ApiError Unit :=
  apiResult

/-- delete_nixos_configuration from clients.py: the except block logs and
re-raises, so the result is passed through unchanged. -/
def delete_nixos_configuration_result (apiResult : Except ApiError Unit) :
    Except ApiError Unit :=
  apiResult

/-- patch_nixos_configuration_spec from clients.py: the except block logs
and re-raises, so the result is passed through unchanged. -/
def patch_nixos_configuration_spec_result (apiResult : Except ApiError Unit) :
    Except ApiError Unit :=
  apiResult

/-- update_cluster_status from clients.py: the except block logs and
re-raises, so the result is passed through unchanged. -/
def update_cluster_status_result (apiResult : Except ApiError Unit) :
    Except ApiError Unit :=
  apiResult

/-- A concrete available machine used in witnesses. -/
def exampleMachine : Machine :=
  { name := "m1", labels := [], hasConfiguration := some false }

/-- A concrete cluster spec with an explicit control-plane list used in
witnesses. -/
def exampleClusterSpec : ClusterSpec :=
  { gitRepo := "g", controlPlane := { machines := ["m1"] } }

/-- A concrete reconcile environment used in witnesses: no pool, every
machine fetch resolves, no existing children, join-token secret present. -/
def exampleReconcileEnv : ReconcileEnv :=
  { pool := []
    getMachine := fun _ => exampleMachine
    existingConfig := fun _ => none
    joinTokenSecretExists := true }

/-- A concrete monitor environment used in witnesses: the child of machine
m1 is a control-plane configuration with an applied commit, the machine
reports hasConfiguration, the kubeconfig secret does not exist yet and the
harvest returns text. -/
def exampleMonitorEnv : MonitorEnv :=
  { getConfig := fun n =>
      if n == "c-m1" then
        some { roleLabel := some "control-plane", appliedCommit := some "abc" }
      else none
    getMachineStatus := fun n =>
      if n == "m1" then some { hasConfiguration := some true } else none
    kubeconfigSecretExists := false
    harvested := some "kubeconfig-text" }

/-- The child object the witness reconcile run creates. -/
def exampleChildObject : NixosConfigurationObject :=
  create_nixos_configuration_for_machine "c" "u1" "m1" "control-plane"
    exampleClusterSpec (exampleReconcileEnv.getMachine "m1") ("c" ++ "-join-token")

/-- The action list of the witness reconcile run. -/
def exampleReconcileActions : List ApiAction :=
  [ApiAction.createConfig exampleChildObject,
   ApiAction.patchStatus
     (reconcileStatusUpdate "c" ["m1"] [] [("m1", "c" ++ "-" ++ "m1")])]

/-- A monitor entry whose machine fetch raised, used for C7. -/
def exampleFailedFetch : MonitorEntry :=
  { machineName := "m2"
    configFetch := some { roleLabel := some "worker", appliedCommit := some "abc" }
    machineFetch := none }

/-- A fully ready worker entry, used for C7. -/
def exampleReadyWorker : MonitorEntry :=
  { machineName := "m3"
    configFetch := some { roleLabel := some "worker", appliedCommit := some "sha1" }
    machineFetch := some { hasConfiguration := some true } }

/-- C1: strict selector precedence. A non-empty explicit machines list is
returned verbatim whatever the status and the pool; otherwise a non-empty
persisted selection is returned verbatim whatever the pool, so the selection
(and in particular its first element) is identical across reconciles with
different pools. -/
theorem select_machines_strict_precedence
    (spec : ClusterSpec) (role : Role) (current_status : Option ClusterStatus)
    (st : ClusterStatus) (pool pool' : List Machine) :
    ((roleSpecOf spec role).machines ≠ [] →
      select_machines_for_cluster spec role current_status pool =
        (roleSpecOf spec role).machines) ∧
    ((roleSpecOf spec role).machines = [] → selectedOf st role ≠ [] →
      select_machines_for_cluster spec role (some st) pool = selectedOf st role ∧
      select_machines_for_cluster spec role (some st) pool =
        select_machines_for_cluster spec role (some st) pool' ∧
      (select_machines_for_cluster spec role (some st) pool).head? =
        (selectedOf st role).head?) := by
  constructor
  · intro h
    simp [select_machines_for_cluster, h]
  · intro hempty hsel
    simp [select_machines_for_cluster, hempty, hsel]

/-- Witness for C1 at concrete inputs: an explicit list wins over a populated
status and pool, and a persisted selection survives a pool that no longer
contains its machine. -/
theorem select_machines_strict_precedence_witness :
    (select_machines_for_cluster
        { gitRepo := "r", controlPlane := { machines := ["cp-01", "cp-02"], count := 5 } }
        Role.controlPlane
        (some { selectedControlPlaneMachines := ["old"] })
        [{ name := "cp-09", labels := [], hasConfiguration := some false }] =
      ["cp-01", "cp-02"]) ∧
    (select_machines_for_cluster
        { gitRepo := "r", controlPlane := { matchLabels := [("r", "cp")], count := 1 } }
        Role.controlPlane
        (some { selectedControlPlaneMachines := ["cp-b"] })
        [{ name := "cp-a", labels := [("r", "cp")], hasConfiguration := some false }] =
      ["cp-b"]) := by
  have h1 := select_machines_strict_precedence
    { gitRepo := "r", controlPlane := { machines := ["cp-01", "cp-02"], count := 5 } }
    Role.controlPlane
    (some { selectedControlPlaneMachines := ["old"] })
    { selectedControlPlaneMachines := ["old"] }
    [{ name := "cp-09", labels := [], hasConfiguration := some false }] []
  have h2 := select_machines_strict_precedence
    { gitRepo := "r", controlPlane := { matchLabels := [("r", "cp")], count := 1 } }
    Role.controlPlane none
    { selectedControlPlaneMachines := ["cp-b"] }
    [{ name := "cp-a", labels := [("r", "cp")], hasConfiguration := some false }] []
  exact ⟨h1.1 (by decide), (h2.2 (by decide) (by decide)).1⟩

/-- C2: fresh selection. When neither an explicit list nor a persisted
selection exists the selector returns the fresh-selection value, which is the
empty list when count is 0, is sorted ascending by name, contains only names
of pool machines whose labels include every matchLabels pair and whose
hasConfiguration flag is false te absent flag excludes the machine), and has
at most count entries. Determinism in (matchLabels, count, pool) is immediate
because freshSelection is a pure function of exactly those arguments. -/
theorem fresh_selection_characterization
    (spec : ClusterSpec) (role : Role) (st : ClusterStatus)
    (matchLabels : List (String × String)) (count : Nat) (pool : List Machine) :
    ((roleSpecOf spec role).machines = [] → selectedOf st role = [] →
      select_machines_for_cluster spec role (some st) pool =
        freshSelection (roleSpecOf spec role).matchLabels
          (roleSpecOf spec role).count pool) ∧
    freshSelection matchLabels 0 pool = [] ∧
    List.Sorted (· ≤ ·) (freshSelection matchLabels count pool) ∧
    (∀ nm ∈ freshSelection matchLabels count pool,
      ∃ m ∈ pool, m.name = nm ∧ labelsMatch m.labels matchLabels = true ∧
        m.hasConfiguration.getD true = false) ∧
    (freshSelection matchLabels count pool).length ≤ count := by
  refine ⟨?_, ?_, ?_, ?_, ?_⟩
  · intro hm hs
    simp [select_machines_for_cluster, hm, hs]
  · simp [freshSelection]
  · unfold freshSelection
    split
    · exact List.sorted_nil
    · exact List.Pairwise.sublist (List.take_sublist _ _)
        (List.sorted_insertionSort _ _)
  · intro nm hnm
    unfold freshSelection at hnm
    split at hnm
    · simp at hnm
    · have hmem := List.take_subset _ _ hnm
      rw [List.mem_insertionSort] at hmem
      simp only [availableMatchingNames, List.mem_map, List.mem_filter,
        Bool.and_eq_true] at hmem
      obtain ⟨m, ⟨hpool, hmatch, havail⟩, hname⟩ := hmem
      refine ⟨m, hpool, hname, hmatch, ?_⟩
      have := havail
      unfold machineAvailable at this
      cases h : m.hasConfiguration.getD true <;> simp [h] at this ⊢
  · unfold freshSelection
    split
    · simp
    · calc (List.take count _).length ≤ count := by
            rw [List.length_take]; exact Nat.min_le_left _ _

/-- Witness for C2 at the concrete tie-break scenario: pool w3, w1 available
and w2 already configured, matchLabels r=w, count 1, empty status, so the
selector returns exactly the lexicographically first available name w1. -/
theorem fresh_selection_characterization_witness :
    select_machines_for_cluster
      { gitRepo := "g", dataPlane := { matchLabels := [("r", "w")], count := 1 } }
      Role.dataPlane (some {})
      [{ name := "w3", labels := [("r", "w")], hasConfiguration := some false },
       { name := "w1", labels := [("r", "w")], hasConfiguration := some false },
       { name := "w2", labels := [("r", "w")], hasConfiguration := some true }] =
    ["w1"] := by
  have h := (fresh_selection_characterization
    { gitRepo := "g", dataPlane := { matchLabels := [("r", "w")], count := 1 } }
    Role.dataPlane {} [("r", "w")] 1
    [{ name := "w3", labels := [("r", "w")], hasConfiguration := some false },
     { name := "w1", labels := [("r", "w")], hasConfiguration := some false },
     { name := "w2", labels := [("r", "w")], hasConfiguration := some true }]).1
    (by decide) (by decide)
  rw [h]
  have h31 : ¬ (("w3" : String) ≤ "w1") := fun hc =>
    absurd (String.le_iff_toList_le.mp hc) (by decide)
  simp [freshSelection, availableMatchingNames, labelsMatch, machineAvailable,
    roleSpecOf, List.insertionSort, List.orderedInsert, List.take, h31]

/-- C3: the monitor phase function, for all non-negative counters, is exactly:
Ready iff cp_ready = cp_total > 0 and (dp_total = 0 or dp_ready = dp_total);
ControlPlaneReady iff cp_ready = cp_total > 0 and not the Ready condition;
Provisioning otherwise. -/
theorem monitor_phase_function
    (cp_ready cp_total dp_ready dp_total : Nat) :
    (computePhase cp_ready cp_total dp_ready dp_total = "Ready" ↔
      (cp_ready = cp_total ∧ 0 < cp_ready ∧ (dp_total = 0 ∨ dp_ready = dp_total))) ∧
    (computePhase cp_ready cp_total dp_ready dp_total = "ControlPlaneReady" ↔
      (cp_ready = cp_total ∧ 0 < cp_ready ∧
        ¬(dp_total = 0 ∨ dp_ready = dp_total))) ∧
    (computePhase cp_ready cp_total dp_ready dp_total = "Provisioning" ↔
      ¬(cp_ready = cp_total ∧ 0 < cp_ready)) := by
  unfold computePhase all_control_plane_ready all_workers_ready
  refine ⟨?_, ?_, ?_⟩ <;>
    split <;>
    rename_i h1 <;>
    try split <;> rename_i h2
  all_goals
    simp_all only [Bool.and_eq_true, Bool.or_eq_true, beq_iff_eq,
      decide_eq_true_eq, not_and, not_or]
  all_goals simp_all <;> omega

/-- C4: drift-repair scope. The key set of the emitted merge-patch is exactly
the subset of gitRepo, ref, configurationSubdir, credentialsRef on which the
parent and the existing child differ (under the comparisons the code
performs); a removed optional ref becomes an explicit null entry; an empty
update set issues no patch; and no key outside the four configurable fields,
in particular none of flake, machineRef, fullInstall, additionalFiles, ever
appears in a patch. -/
theorem drift_repair_scope (spec : ClusterSpec) (existing : NixosSpecView) :
    (("gitRepo" ∈ (computeSpecUpdates spec existing).map Prod.fst) ↔
      existing.gitRepo ≠ some spec.gitRepo) ∧
    (("ref" ∈ (computeSpecUpdates spec existing).map Prod.fst) ↔
      spec.ref ≠ existing.ref) ∧
    (("configurationSubdir" ∈ (computeSpecUpdates spec existing).map Prod.fst) ↔
      spec.configurationSubdir.getD "" ≠ existing.configurationSubdir.getD "") ∧
    (("credentialsRef" ∈ (computeSpecUpdates spec existing).map Prod.fst) ↔
      spec.credentialsRef ≠ existing.credentialsRef) ∧
    (∀ k ∈ (computeSpecUpdates spec existing).map Prod.fst,
      k = "gitRepo" ∨ k = "ref" ∨ k = "configurationSubdir" ∨
        k = "credentialsRef") ∧
    (spec.ref = none → existing.ref ≠ none →
      ("ref", FieldValue.null) ∈ computeSpecUpdates spec existing) ∧
    (computeSpecUpdates spec existing = [] → driftPatch spec existing = none) := by
  unfold computeSpecUpdates driftPatch
  by_cases h1 : existing.gitRepo = some spec.gitRepo <;>
  by_cases h2 : spec.ref = existing.ref <;>
  by_cases h3 : spec.configurationSubdir.getD "" = existing.configurationSubdir.getD "" <;>
  by_cases h4 : spec.credentialsRef = existing.credentialsRef <;>
  simp_all [fieldValueOfOpt] <;>
  first
    | (intro hnone _ heq; exact h2 (hnone.trans heq))
    | simp [computeSpecUpdates, h1, h2, h3, h4]

/-- Witness for C4 at the concrete removal scenario: the existing child still
carries ref v1, the parent no longer sets ref and all other fields agree, so
the computed patch is exactly the single explicit-null entry for ref. -/
theorem drift_repair_scope_witness :
    computeSpecUpdates { gitRepo := "g" }
        { gitRepo := some "g", ref := some "v1" } =
      [("ref", FieldValue.null)] ∧
    ("ref", FieldValue.null) ∈ computeSpecUpdates { gitRepo := "g" }
        { gitRepo := some "g", ref := some "v1" } := by
  refine ⟨by decide, ?_⟩
  exact (drift_repair_scope { gitRepo := "g" }
    { gitRepo := some "g", ref := some "v1" }).2.2.2.2.2.1 (by decide) (by decide)

/-- A failed fetch of either object leaves the counter state untouched. -/
theorem stepEntry_failed_eq (c : Counts) (e : MonitorEntry)
    (h : e.configFetch = none ∨ e.machineFetch = none) : stepEntry c e = c := by
  rcases h with h | h
  · simp [stepEntry, h]
  · cases hc : e.configFetch <;> simp [stepEntry, hc, h]

/-- One loop iteration increments the ready control-plane counter exactly
when the entry is a ready control-plane node. -/
theorem stepEntry_control_plane_ready (c : Counts) (e : MonitorEntry) :
    (stepEntry c e).control_plane_ready =
      c.control_plane_ready + (if entryReadyControlPlane e then 1 else 0) := by
  unfold stepEntry entryReadyControlPlane
  cases hc : e.configFetch with
  | none => simp
  | some config =>
    cases hm : e.machineFetch with
    | none => simp
    | some machine =>
      by_cases hcp : ((config.roleLabel.getD "worker") == "control-plane") = true <;>
      by_cases hr : (optStrTruthy config.appliedCommit &&
        machine.hasConfiguration.getD false) = true <;>
      simp [hcp, hr]

/-- The loop's ready control-plane counter counts exactly the ready
control-plane entries. -/
theorem foldl_control_plane_ready (entries : List MonitorEntry) (c : Counts) :
    (List.foldl stepEntry c entries).control_plane_ready =
      c.control_plane_ready + entries.countP entryReadyControlPlane := by
  induction entries generalizing c with
  | nil => simp
  | cons e rest ih =>
    rw [List.foldl_cons, ih, List.countP_cons, stepEntry_control_plane_ready]
    by_cases hp : entryReadyControlPlane e = true
    all_goals simp [hp]
    all_goals omega

/-- A positive ready control-plane counter exhibits a ready control-plane
entry. -/
theorem exists_ready_control_plane (entries : List MonitorEntry)
    (h : 0 < (aggregateStatuses entries).control_plane_ready) :
    ∃ e ∈ entries, entryReadyControlPlane e = true := by
  have hc := foldl_control_plane_ready entries ⟨0, 0, 0, 0, []⟩
  unfold aggregateStatuses at h
  rw [hc] at h
  simp only [Nat.zero_add] at h
  exact List.countP_pos_iff.mp h

/-- Unpacking of a ready control-plane entry into the conditions the code
checks: both fetches succeeded, the role label is control-plane, the
appliedCommit is non-empty and hasConfiguration is true. -/
theorem entryReadyControlPlane_spec (e : MonitorEntry)
    (h : entryReadyControlPlane e = true) :
    ∃ config machine, e.configFetch = some config ∧
      e.machineFetch = some machine ∧
      config.roleLabel.getD "worker" = "control-plane" ∧
      config.appliedCommit.getD "" ≠ "" ∧
      machine.hasConfiguration.getD false = true := by
  unfold entryReadyControlPlane at h
  cases hc : e.configFetch with
  | none => rw [hc] at h; exact absurd h (by simp)
  | some config =>
    rw [hc] at h
    cases hm : e.machineFetch with
    | none => rw [hm] at h; exact absurd h (by simp)
    | some machine =>
      rw [hm] at h
      simp only [Bool.and_eq_true, beq_iff_eq, optStrTruthy,
        Bool.not_eq_true', beq_eq_false_iff_ne] at h
      exact ⟨config, machine, rfl, rfl, h.1, h.2.1, h.2.2⟩

/-- Every effect of the deletion handler is a child delete or a secret
delete. -/
theorem mem_handle_cluster_deletion {a : ApiAction} {name : String}
    {applied : List (String × String)}
    (h : a ∈ handle_cluster_deletion name applied) :
    (∃ n, a = ApiAction.deleteConfig n) ∨ (∃ n, a = ApiAction.deleteSecret n) := by
  unfold handle_cluster_deletion at h
  rw [List.mem_append] at h
  rcases h with h | h
  · obtain ⟨p, _, rfl⟩ := List.mem_map.mp h
    exact Or.inl ⟨_, rfl⟩
  · simp only [List.mem_cons, List.mem_singleton] at h
    rcases h with rfl | rfl | h
    · exact Or.inr ⟨_, rfl⟩
    · exact Or.inr ⟨_, rfl⟩
    · exact absurd h (List.not_mem_nil a)

/-- Every effect of the ensure-or-patch step is either a spec patch or the
creation built by create_nixos_configuration_for_machine. -/
theorem mem_ensure_child {a : ApiAction} {cluster_name cluster_uid : String}
    {spec : ClusterSpec} {machine_name role join_token_secret : String}
    {env : ReconcileEnv}
    (h : a ∈ ensure_child cluster_name cluster_uid spec machine_name role
      join_token_secret env) :
    (∃ n su, a = ApiAction.patchConfig n su) ∨
    a = ApiAction.createConfig (create_nixos_configuration_for_machine
      cluster_name cluster_uid machine_name role spec
      (env.getMachine machine_name) join_token_secret) := by
  simp only [ensure_child] at h
  split at h
  · split at h
    · simp only [List.mem_singleton] at h
      exact Or.inl ⟨_, _, h⟩
    · exact absurd h (List.not_mem_nil a)
  · simp only [List.mem_singleton] at h
    exact Or.inr h

/-- Every effect of one monitor tick is either the guarded kubeconfig secret
creation or the status patch carrying the computed counters. -/
theorem mem_monitor_actions {a : ApiAction} {name : String}
    {appliedMachines : List (String × String)} {env : MonitorEnv}
    (h : a ∈ monitor_cluster_status name appliedMachines env) :
    (a = ApiAction.createSecret (name ++ "-kubeconfig") ["kubeconfig"] ∧
      (all_control_plane_ready
          (aggregateStatuses
            (appliedMachines.map (mkMonitorEntry env))).control_plane_ready
          (aggregateStatuses
            (appliedMachines.map (mkMonitorEntry env))).total_control_plane &&
        !env.kubeconfigSecretExists && optStrTruthy env.harvested) = true) ∨
    a = ApiAction.patchStatus (monitorStatusUpdate name
      (aggregateStatuses (appliedMachines.map (mkMonitorEntry env)))) := by
  simp only [monitor_cluster_status] at h
  split at h
  · exact absurd h (List.not_mem_nil a)
  · rw [List.mem_append] at h
    rcases h with h | h
    · split at h
      · rename_i hg
        simp only [List.mem_singleton] at h
        exact Or.inl ⟨h, hg⟩
      · exact absurd h (List.not_mem_nil a)
    · simp only [List.mem_singleton] at h
      exact Or.inr h

/-- Classification of every effect of one reconcile pass: deletion-path
deletes, the join-token secret creation with its token key, spec patches,
child creations built by create_nixos_configuration_for_machine under the
present uid, or the closing Provisioning status patch. -/
theorem reconcile_actions_classified {name : String} {uid : Option String}
    {spec : ClusterSpec} {status : Option ClusterStatus} {deletion : Bool}
    {env : ReconcileEnv} {acts : List ApiAction} {a : ApiAction}
    (hok : reconcile_kubernetes_cluster name uid spec status deletion env =
      .ok acts)
    (ha : a ∈ acts) :
    (∃ n, a = ApiAction.deleteConfig n) ∨
    (∃ n, a = ApiAction.deleteSecret n) ∨
    a = ApiAction.createSecret (name ++ "-join-token") ["token"] ∨
    (∃ n su, a = ApiAction.patchConfig n su) ∨
    (∃ cluster_uid machine_name role, uid = some cluster_uid ∧
      a = ApiAction.createConfig (create_nixos_configuration_for_machine name
        cluster_uid machine_name role spec (env.getMachine machine_name)
        (name ++ "-join-token"))) ∨
    (∃ cp dp ap, a = ApiAction.patchStatus (reconcileStatusUpdate name cp dp ap)) := by
  cases uid with
  | none =>
    simp only [reconcile_kubernetes_cluster] at hok
    split at hok
    · injection hok with hX
      subst hX
      rcases mem_handle_cluster_deletion ha with ⟨n, rfl⟩ | ⟨n, rfl⟩
      · exact Or.inl ⟨n, rfl⟩
      · exact Or.inr (Or.inl ⟨n, rfl⟩)
    · cases hok
  | some cluster_uid =>
    simp only [reconcile_kubernetes_cluster] at hok
    split at hok
    · injection hok with hX
      subst hX
      rcases mem_handle_cluster_deletion ha with ⟨n, rfl⟩ | ⟨n, rfl⟩
      · exact Or.inl ⟨n, rfl⟩
      · exact Or.inr (Or.inl ⟨n, rfl⟩)
    · split at hok
      · cases hok
      · injection hok with hX
        subst hX
        rcases List.mem_append.mp ha with h012 | hpatch
        · rcases List.mem_append.mp h012 with h01 | h2
          · rcases List.mem_append.mp h01 with h0 | h1
            · split at h0
              · exact absurd h0 (List.not_mem_nil a)
              · simp only [List.mem_singleton] at h0
                exact Or.inr (Or.inr (Or.inl h0))
            · simp only [List.mem_flatten, List.mem_map] at h1
              obtain ⟨l, ⟨mn, _, rfl⟩, hal⟩ := h1
              rcases mem_ensure_child hal with ⟨n, su, rfl⟩ | rfl
              · exact Or.inr (Or.inr (Or.inr (Or.inl ⟨n, su, rfl⟩)))
              · exact Or.inr (Or.inr (Or.inr (Or.inr (Or.inl
                  ⟨cluster_uid, mn, "control-plane", rfl, rfl⟩))))
          · simp only [List.mem_flatten, List.mem_map] at h2
            obtain ⟨l, ⟨mn, _, rfl⟩, hal⟩ := h2
            rcases mem_ensure_child hal with ⟨n, su, rfl⟩ | rfl
            · exact Or.inr (Or.inr (Or.inr (Or.inl ⟨n, su, rfl⟩)))
            · exact Or.inr (Or.inr (Or.inr (Or.inr (Or.inl
                ⟨cluster_uid, mn, "worker", rfl, rfl⟩))))
        · simp only [List.mem_singleton] at hpatch
          exact Or.inr (Or.inr (Or.inr (Or.inr (Or.inr ⟨_, _, _, hpatch⟩))))

/-- The phase function only ever produces the three provisioning phases. -/
theorem computePhase_cases (a b c d : Nat) :
    computePhase a b c d = "Provisioning" ∨
    computePhase a b c d = "ControlPlaneReady" ∨
    computePhase a b c d = "Ready" := by
  unfold computePhase
  split_ifs <;> simp

/-- C5 counterexample: the claim says every custom-resource operation
targets the API group nico.homystack.com, but get_machine (one of the core's
custom-resource operations) targets nio.homystack.com instead. -/
theorem api_group_counterexample :
    get_machine_coords ∈ allCustomResourceCoords ∧
    get_machine_coords.group = "nio.homystack.com" ∧
    ¬ get_machine_coords.group = "nico.homystack.com" := by
  decide

/-- C5 (amended): every operation uses version v1alpha1; the Machine and
NixosConfiguration operations target group nio.homystack.com with plurals
machines and nixosconfigurations; the KubernetesCluster status patch targets
group nico.homystack.com with plural kubernetesclusters. -/
theorem api_coordinates_amended :
    (∀ c ∈ allCustomResourceCoords, c.version = "v1alpha1") ∧
    get_machine_coords =
      { group := "nio.homystack.com", version := "v1alpha1",
        plural := "machines" } ∧
    list_machines_coords =
      { group := "nio.homystack.com", version := "v1alpha1",
        plural := "machines" } ∧
    create_nixos_configuration_coords =
      { group := "nio.homystack.com", version := "v1alpha1",
        plural := "nixosconfigurations" } ∧
    create_nixos_configuration_with_owner_coords =
      { group := "nio.homystack.com", version := "v1alpha1",
        plural := "nixosconfigurations" } ∧
    delete_nixos_configuration_coords =
      { group := "nio.homystack.com", version := "v1alpha1",
        plural := "nixosconfigurations" } ∧
    get_nixos_configuration_coords =
      { group := "nio.homystack.com", version := "v1alpha1",
        plural := "nixosconfigurations" } ∧
    patch_nixos_configuration_spec_coords =
      { group := "nio.homystack.com", version := "v1alpha1",
        plural := "nixosconfigurations" } ∧
    update_cluster_status_coords =
      { group := "nico.homystack.com", version := "v1alpha1",
        plural := "kubernetesclusters" } := by
  decide

/-- C6: the kubeconfig secret content is created only by the monitor tick,
and only when some applied machine has a control-plane child with a
non-empty appliedCommit whose machine reports hasConfiguration true; the
reconciler itself never creates a secret with the kubeconfig key, its only
secret creation being the join token. -/
theorem kubeconfig_creation_requires_ready_control_plane
    (name : String) (appliedMachines : List (String × String))
    (env : MonitorEnv) (uid : Option String) (spec : ClusterSpec)
    (status : Option ClusterStatus) (deletion : Bool) (renv : ReconcileEnv)
    (acts : List ApiAction) :
    (∀ sname keys, ApiAction.createSecret sname keys ∈
        monitor_cluster_status name appliedMachines env →
      ∃ p ∈ appliedMachines, ∃ config machine,
        env.getConfig p.2 = some config ∧
        env.getMachineStatus p.1 = some machine ∧
        config.roleLabel.getD "worker" = "control-plane" ∧
        config.appliedCommit.getD "" ≠ "" ∧
        machine.hasConfiguration.getD false = true) ∧
    (reconcile_kubernetes_cluster name uid spec status deletion renv =
        .ok acts →
      ∀ sname keys, ApiAction.createSecret sname keys ∈ acts →
        keys = ["token"]) := by
  constructor
  · intro sname keys hmem
    rcases mem_monitor_actions hmem with ⟨_, hg⟩ | heq
    · have hall : all_control_plane_ready
          (aggregateStatuses
            (appliedMachines.map (mkMonitorEntry env))).control_plane_ready
          (aggregateStatuses
            (appliedMachines.map (mkMonitorEntry env))).total_control_plane =
          true := by
        simp only [Bool.and_eq_true] at hg
        exact hg.1.1
      have hpos : 0 < (aggregateStatuses
          (appliedMachines.map (mkMonitorEntry env))).control_plane_ready := by
        unfold all_control_plane_ready at hall
        simp only [Bool.and_eq_true, beq_iff_eq, decide_eq_true_eq] at hall
        exact hall.2
      obtain ⟨e, he, hready⟩ := exists_ready_control_plane _ hpos
      obtain ⟨p, hp, rfl⟩ := List.mem_map.mp he
      obtain ⟨config, machine, hc, hm, h1, h2, h3⟩ :=
        entryReadyControlPlane_spec _ hready
      exact ⟨p, hp, config, machine, hc, hm, h1, h2, h3⟩
    · exact ApiAction.noConfusion heq
  · intro hok sname keys hmem
    rcases reconcile_actions_classified hok hmem with
      ⟨n, h⟩ | ⟨n, h⟩ | h | ⟨n, su, h⟩ | ⟨cu, mn, role, _, h⟩ | ⟨cp, dp, ap, h⟩
    · exact ApiAction.noConfusion h
    · exact ApiAction.noConfusion h
    · injection h
    · exact ApiAction.noConfusion h
    · exact ApiAction.noConfusion h
    · exact ApiAction.noConfusion h

/-- Witness for C6 at a concrete monitor tick that creates the kubeconfig
secret: the exhibited ready control-plane machine is m1 with child c-m1. -/
theorem kubeconfig_creation_requires_ready_control_plane_witness :
    ∃ p ∈ [("m1", "c-m1")], ∃ config machine,
      exampleMonitorEnv.getConfig p.2 = some config ∧
      exampleMonitorEnv.getMachineStatus p.1 = some machine ∧
      config.roleLabel.getD "worker" = "control-plane" ∧
      config.appliedCommit.getD "" ≠ "" ∧
      machine.hasConfiguration.getD false = true :=
  (kubeconfig_creation_requires_ready_control_plane "c" [("m1", "c-m1")]
    exampleMonitorEnv (some "u1") exampleClusterSpec none false
    exampleReconcileEnv []).1 ("c" ++ "-kubeconfig") ["kubeconfig"] (by decide)

/-- C7 counterexample: a worker entry whose machine fetch raised is claimed
to still count in its role's total; the aggregation in fact leaves every
counter untouched, exactly as if the machine were absent, so the worker
total is 0 and not 1. -/
theorem monitor_failure_total_counterexample :
    (aggregateStatuses [exampleFailedFetch]).total_data_plane = 0 ∧
    ¬ (aggregateStatuses [exampleFailedFetch]).total_data_plane = 1 ∧
    aggregateStatuses [exampleFailedFetch] = aggregateStatuses [] := by
  decide

/-- C7 (amended): a failure to fetch a machine's child configuration or
Machine object does not abort the tick, and that machine is skipped
entirely: the aggregation result is the one the remaining machines produce,
so the failed machine contributes to neither the ready counter nor the total
counter of its role. -/
theorem monitor_failure_skipped (pre post : List MonitorEntry)
    (bad : MonitorEntry)
    (h : bad.configFetch = none ∨ bad.machineFetch = none) :
    aggregateStatuses (pre ++ bad :: post) = aggregateStatuses (pre ++ post) := by
  unfold aggregateStatuses
  rw [List.foldl_append, List.foldl_append, List.foldl_cons,
    stepEntry_failed_eq _ _ h]

/-- Witness for C7 at a concrete tick: dropping the failed-fetch entry from
a list containing one ready worker leaves the aggregation unchanged. -/
theorem monitor_failure_skipped_witness :
    aggregateStatuses ([exampleReadyWorker] ++ exampleFailedFetch :: []) =
      aggregateStatuses ([exampleReadyWorker] ++ []) :=
  monitor_failure_skipped [exampleReadyWorker] [] exampleFailedFetch
    (Or.inr rfl)

/-- C8 counterexample: the claim says a ListMachines failure propagates to
the caller, but list_machines converts any failure, NotFound included, into
the same empty list a successful empty listing returns. -/
theorem list_machines_swallows_failures_counterexample :
    list_machines (Except.error (ApiError.other "API timeout")) =
      list_machines (Except.ok []) ∧
    list_machines (Except.error ApiError.notFound) = [] := by
  decide

/-- C8 (amended): every gateway operation other than list_machines passes
its result through unchanged — get_machine has no handler, and
get_nixos_configuration, get_secret_data, create_secret, delete_secret,
create_nixos_configuration, create_nixos_configuration_with_owner,
delete_nixos_configuration, patch_nixos_configuration_spec and
update_cluster_status all log and re-raise — so NotFound stays a
distinguished error kind and every other failure propagates from each of
them; list_machines alone converts every failure, NotFound included, into
an empty list rather than propagating it. -/
theorem api_error_propagation_amended :
    (∀ r : Except ApiError Machine, get_machine_result r = r) ∧
    (∀ r : Except ApiError NixosSpecView, get_nixos_configuration_result r = r) ∧
    (∀ r : Except ApiError (List (String × String)),
      get_secret_data_result r = r) ∧
    (∀ r : Except ApiError Unit, create_secret_result r = r) ∧
    (∀ r : Except ApiError Unit, delete_secret_result r = r) ∧
    (∀ r : Except ApiError Unit, create_nixos_configuration_result r = r) ∧
    (∀ r : Except ApiError Unit,
      create_nixos_configuration_with_owner_result r = r) ∧
    (∀ r : Except ApiError Unit, delete_nixos_configuration_result r = r) ∧
    (∀ r : Except ApiError Unit, patch_nixos_configuration_spec_result r = r) ∧
    (∀ r : Except ApiError Unit, update_cluster_status_result r = r) ∧
    get_nixos_configuration_result (Except.error ApiError.notFound) =
      Except.error ApiError.notFound ∧
    (∀ e : ApiError, list_machines (Except.error e) = []) :=
  ⟨fun _ => rfl, fun _ => rfl, fun _ => rfl, fun _ => rfl, fun _ => rfl,
   fun _ => rfl, fun _ => rfl, fun _ => rfl, fun _ => rfl, fun _ => rfl,
   rfl, fun _ => rfl⟩

/-- C9: every child creation performed by a reconcile pass carries exactly
one owner reference, with controller and blockOwnerDeletion true, naming the
parent cluster and its uid; no creation happens on the deletion path or
without a uid, so no child is ever created without this owner reference. -/
theorem child_creation_owner_reference
    (name : String) (uid : Option String) (spec : ClusterSpec)
    (status : Option ClusterStatus) (deletion : Bool) (env : ReconcileEnv)
    (acts : List ApiAction) (obj : NixosConfigurationObject)
    (hok : reconcile_kubernetes_cluster name uid spec status deletion env =
      .ok acts)
    (hmem : ApiAction.createConfig obj ∈ acts) :
    ∃ cluster_uid, uid = some cluster_uid ∧
      obj.ownerReferences =
        [{ apiVersion := "nico.homystack.com/v1alpha1"
           kind := "KubernetesCluster"
           name := name
           uid := cluster_uid
           controller := true
           blockOwnerDeletion := true }] ∧
      obj.ownerReferences.length = 1 := by
  rcases reconcile_actions_classified hok hmem with
    ⟨n, h⟩ | ⟨n, h⟩ | h | ⟨n, su, h⟩ | ⟨cu, mn, role, huid, h⟩ | ⟨cp, dp, ap, h⟩
  · exact ApiAction.noConfusion h
  · exact ApiAction.noConfusion h
  · exact ApiAction.noConfusion h
  · exact ApiAction.noConfusion h
  · injection h with hobj
    subst hobj
    exact ⟨cu, huid, rfl, rfl⟩
  · exact ApiAction.noConfusion h

/-- Witness for C9 at the concrete reconcile run that creates the child for
machine m1 under uid u1. -/
theorem child_creation_owner_reference_witness :
    ∃ cluster_uid, (some "u1" : Option String) = some cluster_uid ∧
      exampleChildObject.ownerReferences =
        [{ apiVersion := "nico.homystack.com/v1alpha1"
           kind := "KubernetesCluster"
           name := "c"
           uid := cluster_uid
           controller := true
           blockOwnerDeletion := true }] ∧
      exampleChildObject.ownerReferences.length = 1 :=
  child_creation_owner_reference "c" (some "u1") exampleClusterSpec none
    false exampleReconcileEnv exampleReconcileActions exampleChildObject
    rfl (List.mem_cons_self _ _)

/-- The phase function never produces the Deleting or Failed phase. -/
theorem computePhase_ne_deleting_failed (a b c d : Nat) :
    computePhase a b c d ≠ "Deleting" ∧ computePhase a b c d ≠ "Failed" := by
  rcases computePhase_cases a b c d with h | h | h <;> rw [h] <;>
    exact ⟨by decide, by decide⟩

/-- C10: every status write of the core carries a phase in the set
Provisioning, ControlPlaneReady, Ready: the reconciler writes exactly
Provisioning, the monitor writes exactly the value of its phase function
(one of the three, never Deleting or Failed), and the deletion handler
writes no status at all. -/
theorem status_write_phase_domain
    (name : String) (uid : Option String) (spec : ClusterSpec)
    (status : Option ClusterStatus) (deletion : Bool) (env : ReconcileEnv)
    (acts : List ApiAction) (appliedMachines : List (String × String))
    (menv : MonitorEnv) (u v : StatusUpdate)
    (applied2 : List (String × String)) :
    (reconcile_kubernetes_cluster name uid spec status deletion env =
        .ok acts →
      ApiAction.patchStatus u ∈ acts → u.phase = "Provisioning") ∧
    (ApiAction.patchStatus v ∈ monitor_cluster_status name appliedMachines menv →
      (v.phase = "Provisioning" ∨ v.phase = "ControlPlaneReady" ∨
        v.phase = "Ready") ∧ v.phase ≠ "Deleting" ∧ v.phase ≠ "Failed") ∧
    (∀ w, ApiAction.patchStatus w ∉ handle_cluster_deletion name applied2) := by
  refine ⟨?_, ?_, ?_⟩
  · intro hok hmem
    rcases reconcile_actions_classified hok hmem with
      ⟨n, h⟩ | ⟨n, h⟩ | h | ⟨n, su, h⟩ | ⟨cu, mn, role, _, h⟩ | ⟨cp, dp, ap, h⟩
    · exact ApiAction.noConfusion h
    · exact ApiAction.noConfusion h
    · exact ApiAction.noConfusion h
    · exact ApiAction.noConfusion h
    · exact ApiAction.noConfusion h
    · injection h with hu
      subst hu
      rfl
  · intro hmem
    rcases mem_monitor_actions hmem with ⟨heq, _⟩ | heq
    · exact ApiAction.noConfusion heq
    · injection heq with hv
      subst hv
      exact ⟨computePhase_cases _ _ _ _,
        (computePhase_ne_deleting_failed _ _ _ _).1,
        (computePhase_ne_deleting_failed _ _ _ _).2⟩
  · intro w hw
    rcases mem_handle_cluster_deletion hw with ⟨n, h⟩ | ⟨n, h⟩
    · exact ApiAction.noConfusion h
    · exact ApiAction.noConfusion h

/-- Witness for C10 at the concrete reconcile run: the status patch it emits
carries phase Provisioning. -/
theorem status_write_phase_domain_witness :
    (reconcileStatusUpdate "c" ["m1"] [] [("m1", "c" ++ "-" ++ "m1")]).phase =
      "Provisioning" :=
  (status_write_phase_domain "c" (some "u1") exampleClusterSpec none false
    exampleReconcileEnv exampleReconcileActions [("m1", "c-m1")]
    exampleMonitorEnv
    (reconcileStatusUpdate "c" ["m1"] [] [("m1", "c" ++ "-" ++ "m1")])
    (monitorStatusUpdate "c" ⟨0, 0, 0, 0, []⟩) []).1 rfl
    (List.mem_cons_of_mem _ (List.mem_cons_self _ _))
